import Mathlib

/-!
Shallow embedding of the QALX core (entropy-mixing key derivation, composite
QRE scoring, security validation gate, and mesh state/propagation engine),
translated from the Go sources in src/core (package coherra / entropy) and the
legacy duplicates in src/QALX/core.  Go float64 arithmetic is modelled over ℝ,
Go byte values as ℕ (reduced mod 256 where the code converts), Go strings as
Lean strings, and the Go map of mesh nodes as an association list with
lookup/store operations mirroring map indexing.  The process-wide mutable
entropy pool is threaded explicitly: every derivation takes the current pool
and returns the new one.
-/

namespace QALXModel

open Classical

/-- Phi is the golden ratio constant from src/core/lyra.go. -/
noncomputable def Phi : ℝ := (1 + Real.sqrt 5) / 2

/-- MinCoherence is the minimum allowed coherence (src/core/qalx.go). -/
def MinCoherence : ℝ := 0.85

/-- EntropyPoolSize is the initial entropy pool size in bytes (src/core/entropy.go). -/
def EntropyPoolSize : ℕ := 1024

/-- DefaultMeshScore is the default mesh score (src/core/mesh.go). -/
def DefaultMeshScore : ℝ := 1.0

/-- MinPatternLength is the minimum allowed pattern length (src/core/mesh.go). -/
def MinPatternLength : ℕ := 8

/-- LyraGlyph is the modulation vector record from src/core/lyra.go. -/
structure LyraGlyph where
  Emotion : String
  Intensity : ℝ
  EthicsScore : ℝ
  Timestamp : ℤ

/-- QuantumMetrics is the metrics record from src/core/qalx.go. -/
structure QuantumMetrics where
  Coherence : ℝ
  Phase : ℝ
  Amplitude : ℝ
  Harmonics : List ℝ
  EntropyScore : ℝ
  CoherenceThreshold : ℝ
  KeyStrength : ℤ
  EntropyQuality : ℝ
  QuantumResistance : ℝ
  KeyLength : ℤ
  Signature : String
  Strength : ℝ
  PhaseShift : ℝ
  EntropyLevel : ℤ
  Pattern : String
  MeshNodeID : String
  CoherenceHistory : List ℝ
  ValidationScore : ℝ
  NodeState : String
  Timestamp : ℤ

/-- GenerateDynamicHarmonics from src/core/lyra.go; Go `t%360` is truncated
integer remainder, modelled by `Int.tmod`. -/
noncomputable def GenerateDynamicHarmonics (glyph : LyraGlyph) : List ℝ :=
  let base := Phi * glyph.Intensity
  let t := glyph.Timestamp
  [base,
   base + Real.sin (((t.tmod 360 : ℤ) : ℝ) * Real.pi / 180),
   base + glyph.EthicsScore * Real.pi]

/-- The normalization helper for QRE from src/core/entropy.go:
`math.Max(0.1, math.Min(1.0, (x-min)/(max-min)))`. -/
noncomputable def normalize (x min max : ℝ) : ℝ :=
  Max.max 0.1 (Min.min 1.0 ((x - min) / (max - min)))

/-- Normalize helper for QRE and mesh score (src, package coherra); textually the
same formula as `normalize` in src/core/entropy.go. -/
noncomputable def Normalize (x min max : ℝ) : ℝ :=
  Max.max 0.1 (Min.min 1.0 ((x - min) / (max - min)))

/-- The final two lines of ComputeQRE (src/core/entropy.go): the returned score
as a function of the five already-normalized factors. -/
noncomputable def scoreOfFactors (a b c d e : ℝ) : ℝ :=
  Real.logb 2 (a + b + c + d + e + 1)

/-- ComputeQRE from src/core/entropy.go: the composite Quantum Resistance
Entropy score (log-sum model). -/
noncomputable def ComputeQRE (metrics : QuantumMetrics) (glyph : LyraGlyph)
    (meshScore resonance : ℝ) : ℝ :=
  let entropySpread := normalize (metrics.EntropyScore * metrics.EntropyQuality) 0.1 1.0
  let periodObfuscation := normalize |Real.sin (metrics.PhaseShift * Phi)| 0.1 1.0
  let hybridDistortion := normalize |Real.sin (metrics.Phase * Phi)| 0.1 1.0
  let glyphModulation := normalize (glyph.Intensity * glyph.EthicsScore * meshScore) 0.1 1.0
  let weightedResonance := normalize (1.0 / (1.0 + resonance)) 0.1 1.0
  let sum := entropySpread + periodObfuscation + hybridDistortion + glyphModulation +
    weightedResonance
  Real.logb 2 (sum + 1)

/-- GateParams collects the local variables of QALXValidateQuantumSecurity
(src/core/entropy.go lines 94-110) after the emotion-conditioned branch:
thresholds, the locally adjusted glyph, the drift compensation multiplier and
the volatility bonus. -/
structure GateParams where
  threshold : ℝ
  compositeThreshold : ℝ
  glyph : LyraGlyph
  driftComp : ℝ
  volatilityBonus : ℝ

/-- The branch structure at the top of QALXValidateQuantumSecurity
(src/core/entropy.go): default thresholds 0.5/0.5; when the emotion is "trust"
either the edge branch (intensity < 0.90 and coherence < 0.90) with thresholds
0.35/0.40, ethics bumped by 0.02*meshScore, drift compensation and volatility
bonus, or the other trust branch with thresholds 0.4/0.45 and ethics bumped by
0.01*meshScore.  Go `timestamp % k` is truncated remainder (`Int.tmod`). -/
noncomputable def gateParams (metrics : QuantumMetrics) (glyph : LyraGlyph)
    (meshScore : ℝ) : GateParams :=
  if glyph.Emotion = "trust" then
    if glyph.Intensity < 0.90 ∧ metrics.Coherence < 0.90 then
      { threshold := 0.35
        compositeThreshold := 0.40
        glyph := { glyph with EthicsScore := glyph.EthicsScore + 0.02 * meshScore }
        driftComp := 1.0 + 0.01 * |((glyph.Timestamp.tmod 1000 : ℤ) : ℝ)| / 1000
        volatilityBonus :=
          0.02 * |Real.sin (((glyph.Timestamp.tmod 360 : ℤ) : ℝ) * Real.pi / 180)| }
    else
      { threshold := 0.4
        compositeThreshold := 0.45
        glyph := { glyph with EthicsScore := glyph.EthicsScore + 0.01 * meshScore }
        driftComp := 1.0
        volatilityBonus := 0.0 }
  else
    { threshold := 0.5
      compositeThreshold := 0.5
      glyph := glyph
      driftComp := 1.0
      volatilityBonus := 0.0 }

/-- The composite product computed by QALXValidateQuantumSecurity
(src/core/entropy.go line 114) using the locally adjusted parameters. -/
noncomputable def gateComposite (metrics : QuantumMetrics) (resonance : ℝ)
    (glyph : LyraGlyph) (meshScore : ℝ) : ℝ :=
  let p := gateParams metrics glyph meshScore
  metrics.Coherence * resonance * p.glyph.EthicsScore * meshScore * p.driftComp +
    p.volatilityBonus

/-- The QRE score computed by QALXValidateQuantumSecurity (src/core/entropy.go
line 115) with the locally adjusted glyph. -/
noncomputable def gateQRE (metrics : QuantumMetrics) (resonance : ℝ) (glyph : LyraGlyph)
    (meshScore : ℝ) : ℝ :=
  ComputeQRE metrics (gateParams metrics glyph meshScore).glyph meshScore resonance

/-- QALXValidateQuantumSecurity from src/core/entropy.go: fails immediately when
resonance is below the branch threshold, otherwise requires both
composite > compositeThreshold and qre > 2.0. -/
noncomputable def QALXValidateQuantumSecurity (metrics : QuantumMetrics) (resonance : ℝ)
    (glyph : LyraGlyph) (meshScore : ℝ) : Bool :=
  let p := gateParams metrics glyph meshScore
  if resonance < p.threshold then false
  else
    let composite := metrics.Coherence * resonance * p.glyph.EthicsScore * meshScore *
      p.driftComp + p.volatilityBonus
    let qre := ComputeQRE metrics p.glyph meshScore resonance
    if composite > p.compositeThreshold ∧ qre > 2.0 then true else false

/-- QALXError mirrors the error struct of src/core/entropy.go. -/
structure QALXError where
  msg : String
deriving DecidableEq

/-- ErrInsufficientCoherence from src/core/entropy.go. -/
def ErrInsufficientCoherence : QALXError :=
  ⟨"Insufficient quantum coherence for secure key generation"⟩

/-- Conversion of a Go float64 expression to a byte, `byte(x)`: truncation of
the (in-range, nonnegative) value, reduced mod 256.  Every use in the source
applies it to a value in [0, 256]. -/
noncomputable def byteOfFloat (x : ℝ) : ℕ := (⌊x⌋).toNat % 256

/-- Modelled from the spec: the cryptographic wide hash (crypto/sha512, an
external library, not part of this repository).  The claims rely only on the
digest being a deterministic function of the input with a fixed 64-byte
length, which this model provides; the digest byte values themselves are never
inspected by any claim. -/
def sha512Model (input : List ℕ) : List ℕ :=
  (List.range 64).map
    (fun i => (input.foldl (fun a b => (a * 131 + b + i) % 256) (i + 7)) % 256)

/-- Modelled from the spec: the entropy pool is seeded once at startup with
EntropyPoolSize bytes from a cryptographically secure random source
(crypto/rand, external); the randomness is supplied here as an oracle.
Mirrors initializeEntropyPool of src/core/entropy.go. -/
def initializeEntropyPool (randomByte : ℕ → ℕ) : List ℕ :=
  (List.range EntropyPoolSize).map randomByte

/-- harvestQuantumEntropy from src/core/entropy.go: a 32-byte buffer whose
byte i is a sinusoidal transform of coherence/phase/amplitude/harmonics,
cycled by index.  The factor list always has length at least 3, so the
`getD` default is never reached. -/
noncomputable def harvestQuantumEntropy (metrics : QuantumMetrics) : List ℕ :=
  let quantumFactors := [metrics.Coherence, metrics.Phase, metrics.Amplitude] ++
    metrics.Harmonics
  (List.range 32).map (fun i =>
    byteOfFloat ((Real.sin (quantumFactors.getD (i % quantumFactors.length) 0 * Real.pi)
      + 1) * 128))

/-- mixEntropy from src/core/entropy.go: hash the current pool, the harvested
buffer, and the bias-XORed buffer; the digest becomes the new pool and is also
the returned mixed entropy.  The caller threads the pool explicitly. -/
noncomputable def mixEntropy (pool quantumEntropy : List ℕ) (glyph : LyraGlyph)
    (meshScore : ℝ) : List ℕ :=
  let bias := byteOfFloat (glyph.Intensity * glyph.EthicsScore * meshScore * 128)
  let biased := quantumEntropy.map (fun b => Nat.xor b bias)
  sha512Model (pool ++ quantumEntropy ++ biased)

/-- amplifyQuantumKey from src/core/entropy.go: a 64-byte output buffer, each
byte a cyclically indexed mixed-entropy byte XORed with a scaled sine
transform.  Go indexes with `i % len(...)`: when either length is zero this is
an integer division by zero and the program panics, modelled as `none`. -/
noncomputable def amplifyQuantumKey (entropy : List ℕ) (metrics : QuantumMetrics)
    (glyph : LyraGlyph) : Option (List ℕ) :=
  if metrics.Harmonics.length = 0 ∨ entropy.length = 0 then none
  else
    let glyphPhase := Real.sin (glyph.Intensity * glyph.EthicsScore * Real.pi)
    some ((List.range 64).map (fun i =>
      let harmonicFactor := metrics.Harmonics.getD (i % metrics.Harmonics.length) 0
      let quantumPhase := Real.sin (metrics.Phase * harmonicFactor * glyphPhase)
      Nat.xor (entropy.getD (i % entropy.length) 0) (byteOfFloat ((quantumPhase + 1) * 128))))

/-- KeyResult is the outcome of one derivation call: the Go pair
`([]byte, error)` where exactly one side is set, plus a `panicked` outcome for
a runtime panic (which in Go returns nothing at all). -/
inductive KeyResult where
  | key (k : List ℕ)
  | err (e : QALXError)
  | panicked
deriving DecidableEq

/-- QALXGenerateSecureKey from src/core/entropy.go with the process-wide
entropy pool threaded explicitly: returns the derivation outcome and the pool
left behind by the call. -/
noncomputable def QALXGenerateSecureKey (pool : List ℕ) (metrics : QuantumMetrics)
    (glyph : LyraGlyph) (meshScore : ℝ) : KeyResult × List ℕ :=
  if metrics.Coherence < MinCoherence then (KeyResult.err ErrInsufficientCoherence, pool)
  else
    let quantumEntropy := harvestQuantumEntropy metrics
    let mixed := mixEntropy pool quantumEntropy glyph meshScore
    match amplifyQuantumKey mixed metrics glyph with
    | none => (KeyResult.panicked, mixed)
    | some k => (KeyResult.key k, mixed)

/-- QuantumMeshNode from src/core/mesh.go. -/
structure QuantumMeshNode where
  ID : String
  Metrics : QuantumMetrics
  Pattern : String
  CoherenceHistory : List ℝ
  State : String
  Timestamp : ℤ

/-- Alphabet of the standard base64 encoding used by
base64.StdEncoding.EncodeToString. -/
def base64Chars : List Char :=
  "ABCDEFGHIJKLMNOPQRSTUVWXYZabcdefghijklmnopqrstuvwxyz0123456789+/".data

/-- Character of the standard base64 alphabet at a 6-bit index. -/
def base64Char (n : ℕ) : Char := base64Chars.getD (n % 64) 'A'

/-- Standard base64 encoding of a byte list: each 3-byte group becomes four
alphabet characters; a trailing 1- or 2-byte group is padded with '='. -/
def base64EncodeList : List ℕ → List Char
  | [] => []
  | [b0] =>
      [base64Char (b0 / 4), base64Char (b0 % 4 * 16), '=', '=']
  | [b0, b1] =>
      [base64Char (b0 / 4), base64Char (b0 % 4 * 16 + b1 / 16),
       base64Char (b1 % 16 * 4), '=']
  | b0 :: b1 :: b2 :: rest =>
      base64Char (b0 / 4) :: base64Char (b0 % 4 * 16 + b1 / 16) ::
      base64Char (b1 % 16 * 4 + b2 / 64) :: base64Char (b2 % 64) ::
      base64EncodeList rest

/-- Standard base64 encoding of a byte list as a string,
base64.StdEncoding.EncodeToString. -/
def base64Encode (bytes : List ℕ) : String := ⟨base64EncodeList bytes⟩

/-- GeneratePattern from src/core/mesh.go: serialize coherence, phase and
amplitude as little-endian float64 values and base64-encode the resulting
bytes.  The 8-byte little-endian IEEE-754 bit pattern of a float64
(binary.Write / math.Float64bits, external standard library) is machine
representation with no counterpart over the real-number model, so that one
step is supplied as the parameter `float64le`, exactly as the external UUID
generator is; the concatenation and the base64 encoding are embedded
genuinely and no claim depends on the bit-pattern values. -/
def GeneratePattern (float64le : ℝ → List ℕ) (metrics : QuantumMetrics) : String :=
  base64Encode (float64le metrics.Coherence ++ float64le metrics.Phase ++
    float64le metrics.Amplitude)

/-- GenerateMeshNode from src/core/mesh.go.  The fresh unique identifier comes
from an external UUID generator (github.com/google/uuid) and is supplied as a
parameter, as is the float64 bit-pattern function used by the pattern
fingerprint. -/
def GenerateMeshNode (float64le : ℝ → List ℕ) (newID : String)
    (metrics : QuantumMetrics) : QuantumMeshNode :=
  { ID := newID
    Metrics := metrics
    Pattern := GeneratePattern float64le metrics
    CoherenceHistory := metrics.CoherenceHistory ++ [metrics.Coherence]
    State := "active"
    Timestamp := metrics.Timestamp }

/-- UpdateCoherenceHistory from src/core/mesh.go, with the pointer mutation
rendered functionally: append the new coherence to the node history and set
the metrics coherence to it. -/
def UpdateCoherenceHistory (node : QuantumMeshNode) (newCoherence : ℝ) : QuantumMeshNode :=
  { node with
    CoherenceHistory := node.CoherenceHistory ++ [newCoherence]
    Metrics := { node.Metrics with Coherence := newCoherence } }

/-- MeshMetrics from src/core/mesh.go. -/
structure MeshMetrics where
  AvgTrustWeight : ℝ
  UptimePercent : ℝ
  PathVariance : ℝ
  GlyphCoherence : ℝ
  QREValidationRate : ℝ
  ReconfigTime : ℝ

/-- CalculateMeshScore from src/core/mesh.go. -/
noncomputable def CalculateMeshScore (metrics : MeshMetrics) : ℝ :=
  let trustFactor := Normalize metrics.AvgTrustWeight 0.0 1.0
  let vitality := Normalize metrics.UptimePercent 0.0 100.0
  let resilience := 1.0 - Normalize metrics.PathVariance 0.0 10.0
  let harmony := Normalize metrics.GlyphCoherence 0.0 1.0
  let quantumRes := Normalize metrics.QREValidationRate 0.0 1.0
  let adaptability := Normalize metrics.ReconfigTime 0.0 10.0
  0.2 * trustFactor + 0.2 * vitality + 0.2 * resilience +
    0.2 * harmony + 0.1 * quantumRes + 0.1 * (1.0 - adaptability)

/-- MeshNodeValidationError from src/core/mesh.go. -/
structure MeshNodeValidationError where
  Reason : String
deriving DecidableEq

/-- ValidateMeshNode from src/core/mesh.go: coherence bound first, then the
active-state check, then the quantum security gate; the first failing check is
reported, success is `none`. -/
noncomputable def ValidateMeshNode (node : QuantumMeshNode) (resonance : ℝ)
    (glyph : LyraGlyph) (meshScore : ℝ) : Option MeshNodeValidationError :=
  if node.Metrics.Coherence < MinCoherence then
    some ⟨"Mesh node coherence below threshold"⟩
  else if node.State ≠ "active" then
    some ⟨"Mesh node is not active"⟩
  else if QALXValidateQuantumSecurity node.Metrics resonance glyph meshScore = false then
    some ⟨"Quantum security validation failed"⟩
  else
    none

/-- Character-list model of Go strings.ToLower: lower-cases every character.
Lean's byte-position based String.toLower does not reduce in the kernel, so
the same map is taken over the character list (identical on the ASCII
patterns the claims exercise). -/
def toLowerModel (s : String) : String := ⟨s.data.map Char.toLower⟩

/-- Character-list model of Go strings.HasSuffix. -/
def hasSuffixModel (s suffix : String) : Bool := suffix.data.isSuffixOf s.data

/-- PatternValidationError from src/core/mesh.go. -/
structure PatternValidationError where
  Reason : String
deriving DecidableEq

/-- ValidatePattern from src/core/mesh.go: a case-insensitive uniqueness check
against every prior pattern, then the minimum-length check on the lower-cased
pattern.  Go strings.ToLower is modelled by Lean's `String.toLower` (the
claims only exercise ASCII patterns, where the two agree). -/
def ValidatePattern (pattern : String) (history : List String) :
    Option PatternValidationError :=
  let norm := toLowerModel pattern
  if history.any (fun p => toLowerModel p = norm) then
    some ⟨"Pattern is not unique in mesh history"⟩
  else if norm.length < MinPatternLength then
    some ⟨"Pattern entropy too low"⟩
  else
    none

/-- MeshNetwork from src/core/mesh.go; the Go map from node identifier to node
is modelled as an association list with map-style lookup and store. -/
structure MeshNetwork where
  Nodes : List (String × QuantumMeshNode)

/-- Lookup of `net.Nodes[id]` on the association-list model of the Go map. -/
def findNode : List (String × QuantumMeshNode) → String → Option QuantumMeshNode
  | [], _ => none
  | (k, n) :: rest, id => if k = id then some n else findNode rest id

/-- Store of `net.Nodes[id] = node` on the association-list model of the Go
map: replaces the entry when the key is present, appends otherwise. -/
def storeNode : List (String × QuantumMeshNode) → String → QuantumMeshNode →
    List (String × QuantumMeshNode)
  | [], id, n => [(id, n)]
  | (k, v) :: rest, id, n =>
      if k = id then (id, n) :: rest else (k, v) :: storeNode rest id n

/-- PropagateError is the error surface of PropagateMetrics
(src/core/mesh.go): the not-found QALXError or a validation error from
ValidateMeshNode. -/
inductive PropagateError where
  | notFound (e : QALXError)
  | validation (e : MeshNodeValidationError)
deriving DecidableEq

/-- PropagateMetrics from src/core/mesh.go: appends the source coherence to the
destination metrics history, averages the validation scores, writes the
destination back, then re-validates the destination with the default "trust"
glyph, resonance DefaultMeshScore and the mesh score of the fixed example
MeshMetrics.  Returns the updated network and the validation outcome. -/
noncomputable def PropagateMetrics (net : MeshNetwork) (fromID toID : String) :
    MeshNetwork × Option PropagateError :=
  match findNode net.Nodes fromID, findNode net.Nodes toID with
  | some fromNode, some toNode =>
    let toNode1 := { toNode with Metrics := { toNode.Metrics with
        CoherenceHistory := toNode.Metrics.CoherenceHistory ++ [fromNode.Metrics.Coherence]
        ValidationScore := (toNode.Metrics.ValidationScore + fromNode.Metrics.ValidationScore) / 2 } }
    let net1 : MeshNetwork := { Nodes := storeNode net.Nodes toID toNode1 }
    let defaultGlyph : LyraGlyph := ⟨"trust", 1.0, 1.0, toNode1.Timestamp⟩
    let metrics : MeshMetrics := ⟨0.9, 99.0, 2.0, 0.95, 0.98, 1.2⟩
    let meshScore := CalculateMeshScore metrics
    (net1, (ValidateMeshNode toNode1 DefaultMeshScore defaultGlyph meshScore).map
      PropagateError.validation)
  | _, _ => (net, some (PropagateError.notFound ⟨"Node not found in mesh network"⟩))

/-- RevokeNode from src/core/mesh.go: sets the state to revoked and appends the
":revoked" pattern suffix only when not already present; a missing identifier
is a no-op.  The human-readable reason is accepted but not retained. -/
def RevokeNode (net : MeshNetwork) (nodeID : String) (_reason : String) : MeshNetwork :=
  match findNode net.Nodes nodeID with
  | none => net
  | some node =>
    let node1 := { node with State := "revoked" }
    let node2 :=
      if hasSuffixModel node1.Pattern ":revoked" then node1
      else { node1 with Pattern := node1.Pattern ++ ":revoked" }
    { Nodes := storeNode net.Nodes nodeID node2 }

namespace Legacy

/-- ValidatePattern from the legacy duplicate src/QALX/core/mesh.go: exact
(case-sensitive) uniqueness check, then the raw length check against the
literal 8. -/
def ValidatePattern (pattern : String) (history : List String) : Option QALXError :=
  if history.any (fun p => p = pattern) then
    some ⟨"Pattern is not unique in mesh history"⟩
  else if pattern.length < 8 then
    some ⟨"Pattern entropy too low"⟩
  else
    none

/-- RevokeNode from the legacy duplicate src/QALX/core/mesh.go: sets the state
to revoked and appends ":revoked" to the pattern unconditionally (no
already-present guard). -/
def RevokeNode (net : MeshNetwork) (nodeID : String) (_reason : String) : MeshNetwork :=
  match findNode net.Nodes nodeID with
  | none => net
  | some node =>
    let node1 := { node with State := "revoked", Pattern := node.Pattern ++ ":revoked" }
    { Nodes := storeNode net.Nodes nodeID node1 }

end Legacy

/-- InitializeQuantumMetricsWithGlyph from src/core/qalx.go; the two UUID
signatures come from an external generator and are supplied as parameters. -/
noncomputable def InitializeQuantumMetricsWithGlyph (glyph : LyraGlyph)
    (sig nodeID : String) : QuantumMetrics :=
  { Coherence := 0.99
    Phase := Real.pi / 2
    Amplitude := 1.0
    Harmonics := GenerateDynamicHarmonics glyph
    EntropyScore := 0.98
    CoherenceThreshold := 0.90
    KeyStrength := 256
    EntropyQuality := 0.99
    QuantumResistance := 0.95
    KeyLength := 4096
    Signature := sig
    Strength := 0.95
    PhaseShift := Real.pi / 4
    EntropyLevel := 10
    Pattern := "default-pattern"
    MeshNodeID := nodeID
    CoherenceHistory := [0.99]
    ValidationScore := 1.0
    NodeState := "active"
    Timestamp := glyph.Timestamp }

/-- Metrics record with an empty harmonics sequence and healthy coherence,
used as a concrete probe input. -/
def emptyHarmonicsMetrics : QuantumMetrics :=
  { Coherence := 0.99
    Phase := 0
    Amplitude := 0
    Harmonics := []
    EntropyScore := 0
    CoherenceThreshold := 0
    KeyStrength := 0
    EntropyQuality := 0
    QuantumResistance := 0
    KeyLength := 0
    Signature := ""
    Strength := 0
    PhaseShift := 0
    EntropyLevel := 0
    Pattern := ""
    MeshNodeID := ""
    CoherenceHistory := []
    ValidationScore := 0
    NodeState := ""
    Timestamp := 0 }

/-- Same probe metrics with a one-element harmonics sequence. -/
def singleHarmonicMetrics : QuantumMetrics :=
  { emptyHarmonicsMetrics with Harmonics := [1] }

/-- A concrete modulation vector with a non-"trust" tag. -/
def trivialGlyph : LyraGlyph := ⟨"", 0, 0, 0⟩

/-- Digest of the modelled wide hash always has the fixed 64-byte length. -/
theorem sha512Model_length (input : List ℕ) : (sha512Model input).length = 64 := by
  simp [sha512Model]

/-- Mixed entropy is the digest, hence always 64 bytes long. -/
theorem mixEntropy_length (pool qe : List ℕ) (g : LyraGlyph) (s : ℝ) :
    (mixEntropy pool qe g s).length = 64 := by
  simp [mixEntropy, sha512Model]

/-- C2: deriveKey (QALXGenerateSecureKey) returns the error
InsufficientCoherence exactly when the metrics coherence is strictly below the
MinCoherence constant 0.85, and in that case no key bytes are returned. -/
theorem generate_secure_key_err_iff (pool : List ℕ) (m : QuantumMetrics)
    (g : LyraGlyph) (s : ℝ) :
    ((QALXGenerateSecureKey pool m g s).1 = KeyResult.err ErrInsufficientCoherence ↔
      m.Coherence < MinCoherence) ∧
    (m.Coherence < MinCoherence →
      ∀ k, (QALXGenerateSecureKey pool m g s).1 ≠ KeyResult.key k) := by
  by_cases h : m.Coherence < MinCoherence
  · simp [QALXGenerateSecureKey, h]
  · rcases h2 : amplifyQuantumKey (mixEntropy pool (harvestQuantumEntropy m) g s) m g with
      _ | k
    · simp [QALXGenerateSecureKey, h, h2]
    · simp [QALXGenerateSecureKey, h, h2]

/-- Witness for C2 at a concrete input with coherence 0.5 below the bound. -/
theorem generate_secure_key_err_iff_witness :
    ((QALXGenerateSecureKey [] { emptyHarmonicsMetrics with Coherence := 0.5 }
        trivialGlyph 1).1 = KeyResult.err ErrInsufficientCoherence) ∧
    ∀ k, (QALXGenerateSecureKey [] { emptyHarmonicsMetrics with Coherence := 0.5 }
        trivialGlyph 1).1 ≠ KeyResult.key k := by
  have hlt : ({ emptyHarmonicsMetrics with Coherence := 0.5 } :
      QuantumMetrics).Coherence < MinCoherence := by
    norm_num [emptyHarmonicsMetrics, MinCoherence]
  obtain ⟨h1, h2⟩ := generate_secure_key_err_iff []
    { emptyHarmonicsMetrics with Coherence := 0.5 } trivialGlyph 1
  exact ⟨h1.mpr hlt, h2 hlt⟩

/-- C3 counterexample: with healthy coherence 0.99 but an empty harmonics
sequence the Go code evaluates `i % len(metrics.Harmonics)` with a zero
divisor in amplifyQuantumKey and panics; the derivation does not complete and
produces no key even though it does not return InsufficientCoherence. -/
theorem derive_key_empty_harmonics_panics :
    (QALXGenerateSecureKey [] emptyHarmonicsMetrics trivialGlyph 1).1 =
      KeyResult.panicked ∧
    ¬ emptyHarmonicsMetrics.Coherence < MinCoherence := by
  have h1 : ¬ emptyHarmonicsMetrics.Coherence < MinCoherence := by
    norm_num [emptyHarmonicsMetrics, MinCoherence]
  have h2 : emptyHarmonicsMetrics.Harmonics.length = 0 := rfl
  refine ⟨?_, h1⟩
  simp [QALXGenerateSecureKey, h1, amplifyQuantumKey, h2]

/-- C3 amended: on every input with a nonempty harmonics sequence on which
deriveKey does not return InsufficientCoherence — including vectors with
negative or zero intensity or ethics — the derivation completes and produces a
key without panicking. -/
theorem derive_key_total_of_nonempty_harmonics (pool : List ℕ) (m : QuantumMetrics)
    (g : LyraGlyph) (s : ℝ) (hh : m.Harmonics ≠ [])
    (hc : ¬ m.Coherence < MinCoherence) :
    ∃ k, (QALXGenerateSecureKey pool m g s).1 = KeyResult.key k := by
  have hlen : m.Harmonics.length ≠ 0 := by
    simpa [List.length_eq_zero] using hh
  have hent : (mixEntropy pool (harvestQuantumEntropy m) g s).length = 64 :=
    mixEntropy_length pool (harvestQuantumEntropy m) g s
  rcases hA : amplifyQuantumKey (mixEntropy pool (harvestQuantumEntropy m) g s) m g with
    _ | k
  · exfalso
    rw [amplifyQuantumKey, hent] at hA
    simp [hlen] at hA
  · exact ⟨k, by simp [QALXGenerateSecureKey, hc, hA]⟩

/-- Witness for C3's amended theorem: a concrete derivation with harmonics [1],
coherence 0.99 and a zero-intensity zero-ethics vector yields a key. -/
theorem derive_key_total_witness :
    ∃ k, (QALXGenerateSecureKey [] singleHarmonicMetrics trivialGlyph 1).1 =
      KeyResult.key k :=
  derive_key_total_of_nonempty_harmonics [] singleHarmonicMetrics trivialGlyph 1
    (by simp [singleHarmonicMetrics])
    (by norm_num [singleHarmonicMetrics, emptyHarmonicsMetrics, MinCoherence])

/-- C10: the pool starts at EntropyPoolSize = 1024 bytes; whenever the
coherence guard passes (in particular on every successful derivation) the call
replaces the pool by the digest of the mix step, whose length is 64, not
1024; a rejected derivation leaves the pool unchanged.  Subsequent derivations
receive the previous call's returned pool, so they mix over the 64-byte
digest. -/
theorem entropy_pool_after_derivation (randomByte : ℕ → ℕ) (pool : List ℕ)
    (m : QuantumMetrics) (g : LyraGlyph) (s : ℝ) :
    (initializeEntropyPool randomByte).length = EntropyPoolSize ∧
    EntropyPoolSize = 1024 ∧
    (¬ m.Coherence < MinCoherence →
      (QALXGenerateSecureKey pool m g s).2 =
        mixEntropy pool (harvestQuantumEntropy m) g s ∧
      (QALXGenerateSecureKey pool m g s).2.length = 64) ∧
    (m.Coherence < MinCoherence → (QALXGenerateSecureKey pool m g s).2 = pool) := by
  refine ⟨by simp [initializeEntropyPool], rfl, ?_, ?_⟩
  · intro hc
    have hsnd : (QALXGenerateSecureKey pool m g s).2 =
        mixEntropy pool (harvestQuantumEntropy m) g s := by
      rcases hA : amplifyQuantumKey (mixEntropy pool (harvestQuantumEntropy m) g s) m g with
        _ | k
      · simp [QALXGenerateSecureKey, hc, hA]
      · simp [QALXGenerateSecureKey, hc, hA]
    exact ⟨hsnd, by rw [hsnd]; exact mixEntropy_length _ _ _ _⟩
  · intro hc
    simp [QALXGenerateSecureKey, hc]

/-- Witness for C10 at a concrete passing derivation. -/
theorem entropy_pool_after_derivation_witness :
    (QALXGenerateSecureKey [] singleHarmonicMetrics trivialGlyph 1).2.length = 64 :=
  ((entropy_pool_after_derivation (fun _ => 0) [] singleHarmonicMetrics trivialGlyph
    1).2.2.1 (by norm_num [singleHarmonicMetrics, emptyHarmonicsMetrics,
      MinCoherence])).2

/-- C1: the security validation gate returns false whenever resonance is below
the applicable resonance threshold; otherwise it returns true exactly when the
computed composite exceeds the applicable composite threshold and the QRE
score exceeds 2.0 — both conditions required. -/
theorem security_gate_spec (m : QuantumMetrics) (r : ℝ) (g : LyraGlyph) (s : ℝ) :
    (r < (gateParams m g s).threshold → QALXValidateQuantumSecurity m r g s = false) ∧
    (¬ r < (gateParams m g s).threshold →
      (QALXValidateQuantumSecurity m r g s = true ↔
        gateComposite m r g s > (gateParams m g s).compositeThreshold ∧
        gateQRE m r g s > 2.0)) := by
  have hrw : QALXValidateQuantumSecurity m r g s =
      if r < (gateParams m g s).threshold then false
      else if gateComposite m r g s > (gateParams m g s).compositeThreshold ∧
          gateQRE m r g s > 2.0 then true else false := rfl
  constructor
  · intro hr
    rw [hrw, if_pos hr]
  · intro hr
    rw [hrw, if_neg hr]
    by_cases hc : gateComposite m r g s > (gateParams m g s).compositeThreshold ∧
        gateQRE m r g s > 2.0
    · simp [hc]
    · simp [hc]

/-- Witness for C1 at a concrete input: with a non-"trust" vector the
thresholds are 0.5/0.5, resonance 1 is not below 0.5, and the gate equality
with the composite/QRE conditions holds there. -/
theorem security_gate_spec_witness :
    QALXValidateQuantumSecurity emptyHarmonicsMetrics 1 trivialGlyph 1 = true ↔
      gateComposite emptyHarmonicsMetrics 1 trivialGlyph 1 >
        (gateParams emptyHarmonicsMetrics trivialGlyph 1).compositeThreshold ∧
      gateQRE emptyHarmonicsMetrics 1 trivialGlyph 1 > 2.0 :=
  (security_gate_spec emptyHarmonicsMetrics 1 trivialGlyph 1).2
    (by
      have hne : ¬ (trivialGlyph.Emotion = "trust") := by decide
      unfold gateParams
      rw [if_neg hne]
      norm_num)

/-- Storing a node and looking up the same identifier yields the stored node
(map update semantics of the association-list model). -/
theorem findNode_storeNode (l : List (String × QuantumMeshNode)) (id : String)
    (n : QuantumMeshNode) : findNode (storeNode l id n) id = some n := by
  induction l with
  | nil => simp [storeNode, findNode]
  | cons hd tl ih =>
    obtain ⟨k, v⟩ := hd
    by_cases hk : k = id
    · simp [storeNode, hk, findNode]
    · simp [storeNode, hk, findNode, ih]

/-- Appending a single element makes it the last element of the list. -/
theorem getLast?_append_singleton {α : Type} (l : List α) (a : α) :
    (l ++ [a]).getLast? = some a := by
  rw [List.getLast?_append_of_ne_nil l (by simp)]
  rfl

/-- Concrete mesh node with coherence 0.9 used by the propagation probe. -/
def nodeA : QuantumMeshNode :=
  { ID := "a"
    Metrics := { emptyHarmonicsMetrics with Coherence := 0.9 }
    Pattern := "pa"
    CoherenceHistory := [0.9]
    State := "active"
    Timestamp := 0 }

/-- Concrete mesh node with coherence 0.95 and history [0.95] used as the
propagation destination. -/
def nodeB : QuantumMeshNode :=
  { ID := "b"
    Metrics := { emptyHarmonicsMetrics with
      Coherence := 0.95
      CoherenceHistory := [0.95] }
    Pattern := "pb"
    CoherenceHistory := [0.95]
    State := "active"
    Timestamp := 0 }

/-- A two-node network holding nodeA and nodeB. -/
def abNet : MeshNetwork := ⟨[("a", nodeA), ("b", nodeB)]⟩

/-- C5 counterexample: propagating metrics from nodeA (coherence 0.9) to nodeB
(coherence 0.95) appends the source coherence 0.9 to the destination's metrics
coherence history but leaves the destination's current coherence at 0.95, so
the last history element differs from the record's current coherence. -/
theorem propagate_metrics_invariant_counterexample :
    (findNode (PropagateMetrics abNet "a" "b").1.Nodes "b").map
        (fun n => (n.Metrics.CoherenceHistory.getLast?, n.Metrics.Coherence)) =
      some (some 0.9, 0.95) ∧ ((0.9 : ℝ) ≠ 0.95) := by
  constructor
  · rfl
  · norm_num

/-- C5 amended: after node creation and a coherence-history update the last
element of the affected history equals the record's current coherence; after
metric propagation between two present nodes the last element of the
destination's metrics coherence history equals the source node's coherence
(the destination's own coherence field is not updated by propagation). -/
theorem coherence_history_last_after_mutation :
    (∀ (float64le : ℝ → List ℕ) (newID : String) (metrics : QuantumMetrics),
      (GenerateMeshNode float64le newID metrics).CoherenceHistory.getLast? =
        some (GenerateMeshNode float64le newID metrics).Metrics.Coherence) ∧
    (∀ (node : QuantumMeshNode) (c : ℝ),
      (UpdateCoherenceHistory node c).CoherenceHistory.getLast? =
        some (UpdateCoherenceHistory node c).Metrics.Coherence) ∧
    (∀ (net : MeshNetwork) (fromID toID : String) (fromNode toNode : QuantumMeshNode),
      findNode net.Nodes fromID = some fromNode →
      findNode net.Nodes toID = some toNode →
      (findNode (PropagateMetrics net fromID toID).1.Nodes toID).map
          (fun n => n.Metrics.CoherenceHistory.getLast?) =
        some (some fromNode.Metrics.Coherence)) := by
  refine ⟨?_, ?_, ?_⟩
  · intro float64le newID metrics
    simp [GenerateMeshNode, getLast?_append_singleton]
  · intro node c
    simp [UpdateCoherenceHistory, getLast?_append_singleton]
  · intro net fromID toID fromNode toNode hfrom hto
    simp only [PropagateMetrics, hfrom, hto]
    rw [findNode_storeNode]
    simp [getLast?_append_singleton]

/-- Witness for C5's amended theorem at the concrete two-node network. -/
theorem coherence_history_last_witness :
    (findNode (PropagateMetrics abNet "a" "b").1.Nodes "b").map
        (fun n => n.Metrics.CoherenceHistory.getLast?) =
      some (some nodeA.Metrics.Coherence) :=
  coherence_history_last_after_mutation.2.2 abNet "a" "b" nodeA nodeB rfl rfl

/-- A fresh active node with pattern "pat12345" in a one-node network, used to
probe revocation. -/
def revNet : MeshNetwork :=
  ⟨[("n", { ID := "n"
            Metrics := emptyHarmonicsMetrics
            Pattern := "pat12345"
            CoherenceHistory := []
            State := "active"
            Timestamp := 0 })]⟩

/-- C6: revoking the same node twice through the coherra core RevokeNode
(src/core/mesh.go) leaves state revoked and exactly one ":revoked" suffix,
while the legacy duplicate (src/QALX/core/mesh.go) appends the suffix
unconditionally and accumulates ":revoked:revoked" on the second call,
contradicting the claimed idempotency. -/
theorem revoke_twice_core_vs_legacy :
    (findNode (RevokeNode (RevokeNode revNet "n" "r1") "n" "r2").Nodes "n").map
        (fun n => (n.State, n.Pattern)) = some ("revoked", "pat12345:revoked") ∧
    (findNode (Legacy.RevokeNode (Legacy.RevokeNode revNet "n" "r1") "n" "r2").Nodes
        "n").map (fun n => (n.State, n.Pattern)) =
      some ("revoked", "pat12345:revoked:revoked") := by
  constructor
  · rfl
  · rfl

/-- C7: pattern uniqueness in the coherra core ValidatePattern
(src/core/mesh.go) is case-insensitive — "ABC12345" against history
["abc12345"] fails with the not-unique error — while the legacy duplicate
(src/QALX/core/mesh.go) compares exactly and accepts the same input,
contradicting the claimed case-insensitivity. -/
theorem validate_pattern_core_vs_legacy :
    ValidatePattern "ABC12345" ["abc12345"] =
      some ⟨"Pattern is not unique in mesh history"⟩ ∧
    Legacy.ValidatePattern "ABC12345" ["abc12345"] = none := by
  constructor
  · rfl
  · rfl

/-- Concrete revoked node with healthy coherence 0.99. -/
def revokedNode : QuantumMeshNode :=
  { ID := "n1"
    Metrics := emptyHarmonicsMetrics
    Pattern := "pattern:revoked"
    CoherenceHistory := [0.99]
    State := "revoked"
    Timestamp := 0 }

/-- Concrete revoked node whose coherence 0.5 is below MinCoherence. -/
def lowCoherenceRevokedNode : QuantumMeshNode :=
  { ID := "n2"
    Metrics := { emptyHarmonicsMetrics with Coherence := 0.5 }
    Pattern := "p:revoked"
    CoherenceHistory := []
    State := "revoked"
    Timestamp := 0 }

/-- C8 counterexample: a revoked node with coherence 0.5 fails ValidateMeshNode
with the coherence error, not the not-active error, because the coherence
check runs first — so the not-active report does not hold regardless of the
node's metric values. -/
theorem validate_node_revoked_counterexample :
    lowCoherenceRevokedNode.State = "revoked" ∧
    ValidateMeshNode lowCoherenceRevokedNode 1 trivialGlyph 1 =
      some ⟨"Mesh node coherence below threshold"⟩ ∧
    ValidateMeshNode lowCoherenceRevokedNode 1 trivialGlyph 1 ≠
      some ⟨"Mesh node is not active"⟩ := by
  have h : lowCoherenceRevokedNode.Metrics.Coherence < MinCoherence := by
    norm_num [lowCoherenceRevokedNode, emptyHarmonicsMetrics, MinCoherence]
  have hv : ValidateMeshNode lowCoherenceRevokedNode 1 trivialGlyph 1 =
      some ⟨"Mesh node coherence below threshold"⟩ := by
    simp [ValidateMeshNode, h]
  exact ⟨rfl, hv, by rw [hv]; decide⟩

/-- C8 amended: every revoked node whose coherence is not below MinCoherence
fails ValidateMeshNode with the not-active error, for every resonance,
modulation vector and mesh score. -/
theorem validate_node_revoked_not_active (node : QuantumMeshNode) (r : ℝ)
    (g : LyraGlyph) (s : ℝ) (hstate : node.State = "revoked")
    (hcoh : ¬ node.Metrics.Coherence < MinCoherence) :
    ValidateMeshNode node r g s = some ⟨"Mesh node is not active"⟩ := by
  unfold ValidateMeshNode
  rw [if_neg hcoh, if_pos]
  simp [hstate]

/-- Witness for C8's amended theorem at a concrete revoked node with coherence
0.99. -/
theorem validate_node_revoked_not_active_witness :
    ValidateMeshNode revokedNode 1 trivialGlyph 1 =
      some ⟨"Mesh node is not active"⟩ :=
  validate_node_revoked_not_active revokedNode 1 trivialGlyph 1 rfl
    (by norm_num [revokedNode, emptyHarmonicsMetrics, MinCoherence])

/-- Every normalized factor is at least the lower clamp 0.1. -/
theorem tenth_le_normalize (x a b : ℝ) : 0.1 ≤ normalize x a b :=
  le_max_left _ _

/-- Every normalized factor is at most the upper clamp 1.0. -/
theorem normalize_le_one (x a b : ℝ) : normalize x a b ≤ 1.0 :=
  max_le (by norm_num) (min_le_left _ _)

/-- A factor is at least c whenever c is at most 1 and at most the raw
normalized ratio. -/
theorem normalize_ge_of_le {x a b c : ℝ} (hc1 : c ≤ 1.0)
    (hcy : c ≤ (x - a) / (b - a)) : c ≤ normalize x a b :=
  le_trans (le_min hc1 hcy) (le_max_right _ _)

/-- The five factors of ComputeQRE (src/core/entropy.go lines 30-34), in
order. -/
noncomputable def qreFactorList (m : QuantumMetrics) (g : LyraGlyph) (s r : ℝ) :
    List ℝ :=
  [normalize (m.EntropyScore * m.EntropyQuality) 0.1 1.0,
   normalize |Real.sin (m.PhaseShift * Phi)| 0.1 1.0,
   normalize |Real.sin (m.Phase * Phi)| 0.1 1.0,
   normalize (g.Intensity * g.EthicsScore * s) 0.1 1.0,
   normalize (1.0 / (1.0 + r)) 0.1 1.0]

/-- C4: each of the five factors of ComputeQRE lies in [0.1, 1.0], their sum
lies in [0.5, 5.0], the returned score is log2 of the sum plus one and so
lies in [log2 1.5, log2 6], and the score function is monotonic in each
factor. -/
theorem computeQRE_bounds_and_monotone (m : QuantumMetrics) (g : LyraGlyph)
    (s r : ℝ) :
    (∀ f ∈ qreFactorList m g s r, 0.1 ≤ f ∧ f ≤ 1.0) ∧
    (0.5 ≤ (qreFactorList m g s r).sum ∧ (qreFactorList m g s r).sum ≤ 5.0) ∧
    ComputeQRE m g s r = Real.logb 2 ((qreFactorList m g s r).sum + 1) ∧
    (Real.logb 2 1.5 ≤ ComputeQRE m g s r ∧ ComputeQRE m g s r ≤ Real.logb 2 6) ∧
    (∀ a b c d e a1 b1 c1 d1 e1 : ℝ,
      0.1 ≤ a → 0.1 ≤ b → 0.1 ≤ c → 0.1 ≤ d → 0.1 ≤ e →
      a ≤ a1 → b ≤ b1 → c ≤ c1 → d ≤ d1 → e ≤ e1 →
      scoreOfFactors a b c d e ≤ scoreOfFactors a1 b1 c1 d1 e1) := by
  have hlo : ∀ x a b, (0.1 : ℝ) ≤ normalize x a b := tenth_le_normalize
  have hhi : ∀ x a b, normalize x a b ≤ (1.0 : ℝ) := normalize_le_one
  have hsum_lo : 0.5 ≤ (qreFactorList m g s r).sum := by
    have h1 := hlo (m.EntropyScore * m.EntropyQuality) 0.1 1.0
    have h2 := hlo |Real.sin (m.PhaseShift * Phi)| 0.1 1.0
    have h3 := hlo |Real.sin (m.Phase * Phi)| 0.1 1.0
    have h4 := hlo (g.Intensity * g.EthicsScore * s) 0.1 1.0
    have h5 := hlo (1.0 / (1.0 + r)) 0.1 1.0
    simp only [qreFactorList, List.sum_cons, List.sum_nil]
    linarith
  have hsum_hi : (qreFactorList m g s r).sum ≤ 5.0 := by
    have h1 := hhi (m.EntropyScore * m.EntropyQuality) 0.1 1.0
    have h2 := hhi |Real.sin (m.PhaseShift * Phi)| 0.1 1.0
    have h3 := hhi |Real.sin (m.Phase * Phi)| 0.1 1.0
    have h4 := hhi (g.Intensity * g.EthicsScore * s) 0.1 1.0
    have h5 := hhi (1.0 / (1.0 + r)) 0.1 1.0
    simp only [qreFactorList, List.sum_cons, List.sum_nil]
    linarith
  have hEq : ComputeQRE m g s r = Real.logb 2 ((qreFactorList m g s r).sum + 1) := by
    simp only [ComputeQRE, qreFactorList, List.sum_cons, List.sum_nil]
    congr 1
    ring
  refine ⟨?_, ⟨hsum_lo, hsum_hi⟩, hEq, ⟨?_, ?_⟩, ?_⟩
  · intro f hf
    simp only [qreFactorList, List.mem_cons, List.not_mem_nil, or_false] at hf
    rcases hf with rfl | rfl | rfl | rfl | rfl
    · exact ⟨hlo _ _ _, hhi _ _ _⟩
    · exact ⟨hlo _ _ _, hhi _ _ _⟩
    · exact ⟨hlo _ _ _, hhi _ _ _⟩
    · exact ⟨hlo _ _ _, hhi _ _ _⟩
    · exact ⟨hlo _ _ _, hhi _ _ _⟩
  · rw [hEq]
    exact Real.logb_le_logb_of_le (by norm_num) (by norm_num) (by linarith)
  · rw [hEq]
    exact Real.logb_le_logb_of_le (by norm_num) (by linarith) (by linarith)
  · intro a b c d e a1 b1 c1 d1 e1 ha hb hc hd he ha1 hb1 hc1 hd1 he1
    unfold scoreOfFactors
    exact Real.logb_le_logb_of_le (by norm_num) (by linarith) (by linarith)

/-- Witness for C4: a factor-bound instance at a concrete input and a concrete
monotonicity instance. -/
theorem computeQRE_bounds_witness :
    (0.1 ≤ normalize (emptyHarmonicsMetrics.EntropyScore *
        emptyHarmonicsMetrics.EntropyQuality) 0.1 1.0 ∧
      normalize (emptyHarmonicsMetrics.EntropyScore *
        emptyHarmonicsMetrics.EntropyQuality) 0.1 1.0 ≤ 1.0) ∧
    scoreOfFactors 0.1 0.2 0.3 0.4 0.5 ≤ scoreOfFactors 1 1 1 1 1 := by
  constructor
  · exact (computeQRE_bounds_and_monotone emptyHarmonicsMetrics trivialGlyph 1 1).1 _
      (by simp [qreFactorList])
  · exact (computeQRE_bounds_and_monotone emptyHarmonicsMetrics trivialGlyph 1 1).2.2.2.2
      0.1 0.2 0.3 0.4 0.5 1 1 1 1 1 (by norm_num) (by norm_num) (by norm_num)
      (by norm_num) (by norm_num) (by norm_num) (by norm_num) (by norm_num)
      (by norm_num) (by norm_num)

/-- C9: for every modulation vector with intensity 1.0 and ethics score 1.0,
the composite QRE score computed on the default-initialized metrics record
(with mesh score 1.0 and resonance 1.0, the baseline configuration of the
repository's own test) is at least 2.0. -/
theorem computeQRE_default_metrics_ge_two (e sig nodeID : String) (ts : ℤ) :
    2 ≤ ComputeQRE (InitializeQuantumMetricsWithGlyph ⟨e, 1, 1, ts⟩ sig nodeID)
      ⟨e, 1, 1, ts⟩ 1 1 := by
  have hsq_lb : (2.236 : ℝ) < Real.sqrt 5 :=
    (Real.lt_sqrt (by norm_num)).mpr (by norm_num)
  have hsq_ub : Real.sqrt 5 < 2.2361 :=
    (Real.sqrt_lt' (by norm_num)).mpr (by norm_num)
  have hphi_lb : (1.618 : ℝ) < Phi := by unfold Phi; linarith
  have hphi_ub : Phi < 1.61805 := by unfold Phi; linarith
  have hpi_lb : (3.1415 : ℝ) < Real.pi := Real.pi_gt_d4
  have hpi_ub : Real.pi < 3.1416 := Real.pi_lt_d4
  have hx_lb : (0.65 : ℝ) < Real.pi / 4 * Phi := by nlinarith
  have hx_ub : Real.pi / 4 * Phi ≤ Real.pi / 2 := by nlinarith
  have hsin65 : (0.58 : ℝ) < Real.sin 0.65 := by
    have h := Real.sin_gt_sub_cube (by norm_num : (0:ℝ) < 0.65)
      (by norm_num : (0.65:ℝ) ≤ 1)
    nlinarith [h]
  have hsinx_gt : (0.58 : ℝ) < Real.sin (Real.pi / 4 * Phi) := by
    have hmono := Real.sin_lt_sin_of_lt_of_le_pi_div_two
      (by linarith : -(Real.pi / 2) ≤ (0.65 : ℝ)) hx_ub hx_lb
    linarith
  have habs2 : |Real.sin (Real.pi / 4 * Phi)| = Real.sin (Real.pi / 4 * Phi) :=
    abs_of_nonneg (by linarith)
  have hf2 : (0.53 : ℝ) ≤ normalize |Real.sin (Real.pi / 4 * Phi)| 0.1 1.0 := by
    apply normalize_ge_of_le (by norm_num)
    rw [habs2, le_div_iff₀ (by norm_num)]
    linarith
  have hf1 : (0.96 : ℝ) ≤ normalize (0.98 * 0.99) 0.1 1.0 :=
    normalize_ge_of_le (by norm_num) (by norm_num)
  have hf4 : (1 : ℝ) ≤ normalize (1 * 1 * 1) 0.1 1.0 :=
    normalize_ge_of_le (by norm_num) (by norm_num)
  have hf5 : (0.44 : ℝ) ≤ normalize (1.0 / (1.0 + 1)) 0.1 1.0 :=
    normalize_ge_of_le (by norm_num) (by norm_num)
  have hf3 : (0.1 : ℝ) ≤ normalize |Real.sin (Real.pi / 2 * Phi)| 0.1 1.0 :=
    tenth_le_normalize _ _ _
  have hlogb4 : Real.logb 2 4 = 2 := by
    rw [show (4:ℝ) = 2 ^ (2:ℕ) by norm_num, Real.logb_pow,
      Real.logb_self_eq_one (by norm_num)]
    norm_num
  simp only [ComputeQRE, InitializeQuantumMetricsWithGlyph]
  refine le_trans (le_of_eq hlogb4.symm) ?_
  exact Real.logb_le_logb_of_le (by norm_num) (by norm_num) (by linarith)

end QALXModel
